import Mathlib

set_option maxRecDepth 40000

/-!
Verification of the auto-configuration core of the repository
(camera_discovery.py, websocket_configurator.py, health_monitor.py,
certificate_manager.py) against its natural-language specification.

The Python source is shallowly embedded: pure functions become Lean
functions, the asyncio event loop's atomic (suspension-free) code blocks
become atomic steps of explicit state-transition functions, machine
integers are `Nat` with explicit `% 2^32` where overflow matters, and
values that the source draws from the environment (wall-clock time,
socket responses, the result of `ipaddress.ip_network`) become explicit
parameters.
-/

/-! ## MD5 (RFC 1321), needed by `_create_digest_auth`

The source calls `hashlib.md5(...).hexdigest()` on ASCII strings.  We
implement MD5 over byte lists (`Nat` values < 256) so that digest values
can be computed inside Lean and compared with independently computed
RFC 2617 reference values.
-/

namespace MD5

/-- Truncate to 32 bits. -/
def m32 (x : Nat) : Nat := x % 4294967296

/-- 32-bit bitwise complement (argument assumed < 2^32). -/
def not32 (x : Nat) : Nat := 4294967295 - x

/-- 32-bit left rotation. -/
def rotl (x s : Nat) : Nat := m32 (x <<< s) ||| (x >>> (32 - s))

/-- The 64 round constants `K[i] = floor(2^32 * |sin(i+1)|)`. -/
def K : List Nat :=
  [3614090360, 3905402710, 606105819, 3250441966, 4118548399, 1200080426,
   2821735955, 4249261313, 1770035416, 2336552879, 4294925233, 2304563134,
   1804603682, 4254626195, 2792965006, 1236535329, 4129170786, 3225465664,
   643717713, 3921069994, 3593408605, 38016083, 3634488961, 3889429448,
   568446438, 3275163606, 4107603335, 1163531501, 2850285829, 4243563512,
   1735328473, 2368359562, 4294588738, 2272392833, 1839030562, 4259657740,
   2763975236, 1272893353, 4139469664, 3200236656, 681279174, 3936430074,
   3572445317, 76029189, 3654602809, 3873151461, 530742520, 3299628645,
   4096336452, 1126891415, 2878612391, 4237533241, 1700485571, 2399980690,
   4293915773, 2240044497, 1873313359, 4264355552, 2734768916, 1309151649,
   4149444226, 3174756917, 718787259, 3951481745]

/-- The per-round left-rotation amounts. -/
def S : List Nat :=
  [7, 12, 17, 22, 7, 12, 17, 22, 7, 12, 17, 22, 7, 12, 17, 22,
   5, 9, 14, 20, 5, 9, 14, 20, 5, 9, 14, 20, 5, 9, 14, 20,
   4, 11, 16, 23, 4, 11, 16, 23, 4, 11, 16, 23, 4, 11, 16, 23,
   6, 10, 15, 21, 6, 10, 15, 21, 6, 10, 15, 21, 6, 10, 15, 21]

/-- Little-endian bytes of a value, `n` bytes wide. -/
def leBytes : Nat → Nat → List Nat
  | 0, _ => []
  | n + 1, x => (x % 256) :: leBytes n (x / 256)

/-- MD5 padding: append `0x80`, zero bytes to 56 mod 64, then the
bit length as 8 little-endian bytes. -/
def pad (msg : List Nat) : List Nat :=
  let L := msg.length
  let zeros := (64 + 56 - ((L + 1) % 64)) % 64
  msg ++ [128] ++ List.replicate zeros 0 ++ leBytes 8 ((8 * L) % 2 ^ 64)

/-- Split a byte list into 64-byte chunks (structural recursion on a fuel
bound so that the kernel can evaluate it; each step consumes at least one
element, so `l.length` steps always suffice). -/
def chunksAux : Nat → List Nat → List (List Nat)
  | 0, _ => []
  | _, [] => []
  | fuel + 1, l => l.take 64 :: chunksAux fuel (l.drop 64)

/-- Split a byte list into 64-byte chunks. -/
def chunks64 (l : List Nat) : List (List Nat) := chunksAux l.length l

/-- The sixteen 32-bit little-endian message words of one 64-byte chunk. -/
def toWords (chunk : List Nat) : List Nat :=
  (List.range 16).map fun j =>
    chunk.getD (4 * j) 0 + 256 * chunk.getD (4 * j + 1) 0 +
      65536 * chunk.getD (4 * j + 2) 0 + 16777216 * chunk.getD (4 * j + 3) 0

/-- One round of the MD5 compression function. -/
def round (M : List Nat) (st : Nat × Nat × Nat × Nat) (i : Nat) :
    Nat × Nat × Nat × Nat :=
  let (a, b, c, d) := st
  let fg : Nat × Nat :=
    if i < 16 then ((b &&& c) ||| (not32 b &&& d), i)
    else if i < 32 then ((d &&& b) ||| (not32 d &&& c), (5 * i + 1) % 16)
    else if i < 48 then (b ^^^ c ^^^ d, (3 * i + 5) % 16)
    else (c ^^^ (b ||| not32 d), (7 * i) % 16)
  let f := m32 (fg.1 + a + K.getD i 0 + M.getD fg.2 0)
  (d, m32 (b + rotl f (S.getD i 0)), b, c)

/-- Process one 64-byte chunk. -/
def processChunk (h : Nat × Nat × Nat × Nat) (chunk : List Nat) :
    Nat × Nat × Nat × Nat :=
  let M := toWords chunk
  let (a, b, c, d) := (List.range 64).foldl (round M) h
  (m32 (h.1 + a), m32 (h.2.1 + b), m32 (h.2.2.1 + c), m32 (h.2.2.2 + d))

/-- MD5 digest of a byte list, as 16 bytes. -/
def digest (msg : List Nat) : List Nat :=
  let (a, b, c, d) :=
    (chunks64 (pad msg)).foldl processChunk
      (1732584193, 4023233417, 2562383102, 271733878)
  leBytes 4 a ++ leBytes 4 b ++ leBytes 4 c ++ leBytes 4 d

/-- Lowercase hex digit. -/
def hexDigit (n : Nat) : Char := "0123456789abcdef".toList.getD n '0'

/-- Two lowercase hex digits of a byte. -/
def byteHex (b : Nat) : String :=
  String.mk [hexDigit (b / 16), hexDigit (b % 16)]

/-- The bytes of an ASCII string (all strings hashed by the source are
ASCII, where UTF-8 bytes and code points coincide). -/
def strBytes (s : String) : List Nat := s.toList.map Char.toNat

/-- `hashlib.md5(s.encode()).hexdigest()` for ASCII `s`. -/
def md5hex (s : String) : String :=
  String.join ((digest (strBytes s)).map byteHex)

end MD5

/-! ## Python dict helpers

Python dicts keep insertion order; assignment to an existing key replaces
its value in place, assignment to a fresh key appends.  We embed them as
association lists with exactly these semantics.
-/

/-- Python dict assignment `d[k] = v`. -/
def pyDictSet {α : Type} (d : List (String × α)) (k : String) (v : α) :
    List (String × α) :=
  if d.any (·.1 = k) then d.map (fun p => if p.1 = k then (k, v) else p)
  else d ++ [(k, v)]

/-- Python `d.get(k, dflt)`. -/
def pyDictGet {α : Type} (d : List (String × α)) (k : String) (dflt : α) : α :=
  match d.find? (·.1 = k) with
  | some p => p.2
  | none => dflt

/-- Python `k in d`. -/
def pyDictContains {α : Type} (d : List (String × α)) (k : String) : Bool :=
  d.any (·.1 = k)

/-! ## DigestAuthClient: `CameraDiscovery._create_digest_auth`

From `src/auto-config/camera_discovery.py` lines 375-406.  The client
nonce in the source is `hashlib.md5(str(time.time()).encode()).hexdigest()`;
the wall-clock string `str(time.time())` becomes the explicit parameter
`cnonceSeed`.
-/

/-! Python string primitives.  The corresponding Lean core functions
(`String.startsWith`, `String.splitOn`, `String.trim`, `String.toLower`)
are implemented on byte positions and do not reduce inside the kernel,
so the embedding defines them over character lists, following the Python
semantics of `str.startswith`, `str.split`, `str.strip` and `str.lower`
(for the ASCII data these programs handle). -/

/-- Python `s[n:]` on a string (slicing is by code point). -/
def strDrop (s : String) (n : Nat) : String := String.mk (s.toList.drop n)

/-- Python `s.startswith(pre)`. -/
def pyStartsWith (s pre : String) : Bool := pre.toList.isPrefixOf s.toList

/-- Worker for `pySplit`: structural recursion on a fuel bound (one
character is consumed per step, so the list length suffices). -/
def splitSeqAux (sep : List Char) : Nat → List Char → List (List Char)
  | _, [] => [[]]
  | 0, l => [l]
  | fuel + 1, c :: cs =>
    if sep.isPrefixOf (c :: cs) then
      [] :: splitSeqAux sep fuel ((c :: cs).drop sep.length)
    else
      match splitSeqAux sep fuel cs with
      | [] => [[c]]
      | h :: t => (c :: h) :: t

/-- Python `s.split(sep)` for a non-empty separator. -/
def pySplit (s sep : String) : List String :=
  (splitSeqAux sep.toList s.toList.length s.toList).map String.mk

/-- The whitespace characters of Python `str.strip()` (ASCII range). -/
def pyIsSpace (c : Char) : Bool :=
  c = ' ' ∨ c = '\t' ∨ c = '\n' ∨ c = '\r' ∨ c.toNat = 11 ∨ c.toNat = 12

/-- Python `s.strip()`. -/
def pyTrim (s : String) : String :=
  String.mk (((s.toList.dropWhile pyIsSpace).reverse.dropWhile
    pyIsSpace).reverse)

/-- Python `s.lower()` for ASCII data. -/
def pyLowerChar (c : Char) : Char :=
  if 65 ≤ c.toNat ∧ c.toNat ≤ 90 then Char.ofNat (c.toNat + 32) else c

/-- Python `s.lower()` for ASCII data. -/
def pyLower (s : String) : String := String.mk (s.toList.map pyLowerChar)

/-- Python `s.strip(c)` for a single character: remove all leading and
trailing occurrences of `c`. -/
def stripChar (c : Char) (s : String) : String :=
  String.mk (((s.toList.dropWhile (· = c)).reverse.dropWhile (· = c)).reverse)

/-- The parameter-parsing loop of `_create_digest_auth`: split
`www_auth[7:]` on commas and collect `key=value` pairs, stripping
whitespace from the key and whitespace plus surrounding quotes from the
value. -/
def parseAuthParams (wwwAuth : String) : List (String × String) :=
  (pySplit (strDrop wwwAuth 7) ",").foldl
    (fun acc part =>
      match pySplit part "=" with
      | [] => acc
      | [_] => acc
      | k :: rest =>
          pyDictSet acc (pyTrim k)
            (stripChar '"' (pyTrim (String.intercalate "=" rest))))
    []

/-- `CameraDiscovery._create_digest_auth(headers)`.  Returns the
Authorization header value; returns the empty string when the
`WWW-Authenticate` header does not start with `Digest`. -/
def createDigestAuth (username password : String)
    (headers : List (String × String)) (cnonceSeed : String) : String :=
  let wwwAuth := pyDictGet headers "WWW-Authenticate" ""
  if pyStartsWith wwwAuth "Digest" = true then
    let authParams := parseAuthParams wwwAuth
    let realm := pyDictGet authParams "realm" ""
    let nonce := pyDictGet authParams "nonce" ""
    let uri := pyDictGet authParams "uri" "/"
    let qop := pyDictGet authParams "qop" ""
    let ha1 := MD5.md5hex (username ++ ":" ++ realm ++ ":" ++ password)
    let ha2 := MD5.md5hex ("GET:" ++ uri)
    if qop ≠ "" then
      let nc := "00000001"
      let cnonce := MD5.md5hex cnonceSeed
      let response :=
        MD5.md5hex (ha1 ++ ":" ++ nonce ++ ":" ++ nc ++ ":" ++ cnonce ++ ":" ++
          qop ++ ":" ++ ha2)
      "Digest username=\"" ++ username ++ "\", realm=\"" ++ realm ++
        "\", nonce=\"" ++ nonce ++ "\", uri=\"" ++ uri ++ "\", qop=" ++ qop ++
        ", nc=" ++ nc ++ ", cnonce=\"" ++ cnonce ++ "\", response=\"" ++
        response ++ "\""
    else
      let response := MD5.md5hex (ha1 ++ ":" ++ nonce ++ ":" ++ ha2)
      "Digest username=\"" ++ username ++ "\", realm=\"" ++ realm ++
        "\", nonce=\"" ++ nonce ++ "\", uri=\"" ++ uri ++ "\", response=\"" ++
        response ++ "\""
  else ""

/-! ### RFC 2617 reference formulas (spec side)

These follow the words of the specification: `HA1 =
MD5(username:realm:password)`, `HA2 = MD5(method:uri)`, `response =
MD5(HA1:nonce:nc:cnonce:qop:HA2)` with `qop`, else
`MD5(HA1:nonce:HA2)`.  They are the comparison point for the digest
claims and are kept separate from the source embedding above.
-/

/-- Reference `HA1 = MD5(username:realm:password)`. -/
def rfc2617HA1 (username realm password : String) : String :=
  MD5.md5hex (username ++ ":" ++ realm ++ ":" ++ password)

/-- Reference `HA2 = MD5(method:uri)`. -/
def rfc2617HA2 (method uri : String) : String :=
  MD5.md5hex (method ++ ":" ++ uri)

/-- Reference `response = MD5(HA1:nonce:nc:cnonce:qop:HA2)` (qop case). -/
def rfc2617ResponseQop (username password realm nonce qop nc cnonce method uri :
    String) : String :=
  MD5.md5hex (rfc2617HA1 username realm password ++ ":" ++ nonce ++ ":" ++ nc ++
    ":" ++ cnonce ++ ":" ++ qop ++ ":" ++ rfc2617HA2 method uri)

/-- Reference `response = MD5(HA1:nonce:HA2)` (no-qop case). -/
def rfc2617ResponseNoQop (username password realm nonce method uri : String) :
    String :=
  MD5.md5hex (rfc2617HA1 username realm password ++ ":" ++ nonce ++ ":" ++
    rfc2617HA2 method uri)

inductive DigestAuthError
  | malformedChallenge
deriving DecidableEq

/-- The contract the specification states for `BuildAuthHeader`: fail with
`MalformedChallengeError` when the header does not start with `Digest`,
otherwise produce the Digest Authorization value.  Comparison definition
for the error-handling claim about malformed challenges. -/
def buildAuthHeaderSpec (username password : String)
    (headers : List (String × String)) (cnonceSeed : String) :
    Except DigestAuthError String :=
  let wwwAuth := pyDictGet headers "WWW-Authenticate" ""
  if pyStartsWith wwwAuth "Digest" = true then
    Except.ok (createDigestAuth username password headers cnonceSeed)
  else Except.error DigestAuthError.malformedChallenge

/-- Specification-side rendering of the full Authorization value: the RFC
2617 field set with the response given by the reference formulas above.
Mirrors the field layout the source emits so that the digest claim can be
stated as an equality between the source embedding and this rendering. -/
def digestHeaderSpec (username password cnonceSeed wwwAuth : String) : String :=
  let authParams := parseAuthParams wwwAuth
  let realm := pyDictGet authParams "realm" ""
  let nonce := pyDictGet authParams "nonce" ""
  let uri := pyDictGet authParams "uri" "/"
  let qop := pyDictGet authParams "qop" ""
  if qop ≠ "" then
    let nc := "00000001"
    let cnonce := MD5.md5hex cnonceSeed
    let response := rfc2617ResponseQop username password realm nonce qop nc cnonce "GET" uri
    "Digest username=\"" ++ username ++ "\", realm=\"" ++ realm ++
      "\", nonce=\"" ++ nonce ++ "\", uri=\"" ++ uri ++ "\", qop=" ++ qop ++
      ", nc=" ++ nc ++ ", cnonce=\"" ++ cnonce ++ "\", response=\"" ++
      response ++ "\""
  else
    let response := rfc2617ResponseNoQop username password realm nonce "GET" uri
    "Digest username=\"" ++ username ++ "\", realm=\"" ++ realm ++
      "\", nonce=\"" ++ nonce ++ "\", uri=\"" ++ uri ++ "\", response=\"" ++
      response ++ "\""

/-! ## DiscoveryEngine: `_parse_device_info`, `_get_device_info`,
`_probe_camera`, `_network_scan`, `discover_cameras`

From `src/auto-config/camera_discovery.py`.  Network responses are
injected as explicit parameters: `plain url` is the response to the
unauthenticated GET (`none` models a raised network error, which the
source catches), `authed url auth` the response to the retry carrying the
`Authorization` value `auth`.
-/

/-- The record produced by `_parse_device_info`. -/
structure DeviceInfo where
  ip : String
  mac : String
  model : String
  serial : String
  firmware : String
  name : String
deriving DecidableEq, Repr

/-- The key of one `key=value` line, as the source normalises it
(`key.strip().lower()`); `none` when the line has no `=`. -/
def lineKey (line : String) : Option String :=
  match pySplit line "=" with
  | [] => none
  | [_] => none
  | k :: _ => some (pyLower (pyTrim k))

/-- One iteration of the line loop in `_parse_device_info`. -/
def parseInfoLine (info : DeviceInfo) (line : String) : DeviceInfo :=
  match pySplit line "=" with
  | [] => info
  | [_] => info
  | k :: rest =>
    let key := pyLower (pyTrim k)
    let value := pyTrim (String.intercalate "=" rest)
    if key = "macaddress" then { info with mac := value }
    else if key = "model" then { info with model := value }
    else if key = "serialnumber" then { info with serial := value }
    else if key = "version" then { info with firmware := value }
    else if key = "hostname" then { info with name := value }
    else info

/-- `CameraDiscovery._parse_device_info(response_text, ip)`. -/
def parseDeviceInfo (responseText ip : String) : DeviceInfo :=
  (pySplit responseText "\n").foldl parseInfoLine
    { ip := ip, mac := "unknown", model := "unknown", serial := "unknown",
      firmware := "unknown", name := "axis-" ++ ip }

/-- An HTTP response as seen by the discovery code. -/
structure HttpResponse where
  status : Nat
  headers : List (String × String)
  body : String

/-- The two device-info URLs `_get_device_info` tries, in order. -/
def deviceInfoUrls (ip : String) : List String :=
  ["http://" ++ ip ++ "/axis-cgi/basicdeviceinfo.cgi",
   "https://" ++ ip ++ "/axis-cgi/basicdeviceinfo.cgi"]

/-- One iteration of the URL loop in `_get_device_info`: on 401 retry with
the digest Authorization header built from the challenge of the 401
response and accept only a 200; on 200 parse directly; on anything else
(and on any raised network error, modelled by `none`) move on. -/
def tryDeviceInfoUrl (username password cnonceSeed ip : String)
    (plain : String → Option HttpResponse)
    (authed : String → String → Option HttpResponse)
    (url : String) : Option DeviceInfo :=
  match plain url with
  | none => none
  | some resp =>
    if resp.status = 401 then
      let auth := createDigestAuth username password resp.headers cnonceSeed
      match authed url auth with
      | none => none
      | some r2 =>
        if r2.status = 200 then some (parseDeviceInfo r2.body ip) else none
    else if resp.status = 200 then some (parseDeviceInfo resp.body ip)
    else none

/-- `CameraDiscovery._get_device_info(ip)`: first URL that yields a parsed
record wins; `none` when both fail. -/
def getDeviceInfo (username password cnonceSeed ip : String)
    (plain : String → Option HttpResponse)
    (authed : String → String → Option HttpResponse) : Option DeviceInfo :=
  (deviceInfoUrls ip).foldl
    (fun acc url =>
      match acc with
      | some info => some info
      | none => tryDeviceInfoUrl username password cnonceSeed ip plain authed url)
    none

/-- The `AxisCamera` dataclass. -/
structure AxisCamera where
  ip : String
  mac : String
  model : String
  serial : String
  firmware : String
  name : String
  rtsp_url : Option String
  websocket_url : Option String
  capabilities : List (String × Bool)
deriving DecidableEq, Repr

/-- `CameraDiscovery._probe_camera(ip)`: drops the device (returns `none`)
exactly when `_get_device_info` yields nothing; capability, RTSP and
WebSocket probing never raise and are injected as environment
functions. -/
def probeCamera (username password cnonceSeed : String)
    (plain : String → Option HttpResponse)
    (authed : String → String → Option HttpResponse)
    (caps : String → List (String × Bool))
    (rtspUrl wsUrl : String → Option String) (ip : String) :
    Option AxisCamera :=
  match getDeviceInfo username password cnonceSeed ip plain authed with
  | none => none
  | some info =>
      some { ip := info.ip, mac := info.mac, model := info.model,
             serial := info.serial, firmware := info.firmware,
             name := info.name, rtsp_url := rtspUrl ip,
             websocket_url := wsUrl ip, capabilities := caps ip }

/-- `CameraDiscovery._network_scan(network_range)`: the whole body is
wrapped in `try/except Exception`, so a failed CIDR parse (modelled by
`Except.error`) is logged and the empty set of discovered IPs is
returned; otherwise every host of the network is port-probed. -/
def networkScan (parsedNetwork : Except String (List String))
    (portProbe : String → Bool) : List String :=
  match parsedNetwork with
  | Except.error _ => []
  | Except.ok hosts => hosts.filter portProbe

/-- Add an IP to the discovered set (Python set semantics, insertion
ordered for the embedding). -/
def addIp (acc : List String) (ip : String) : List String :=
  if acc.contains ip then acc else acc ++ [ip]

/-- Union of the candidate sets of all discovery probes;
`asyncio.gather(..., return_exceptions=True)` turns a raised probe into a
non-set result, which the combining loop skips. -/
def unionIps (probeResults : List (Except String (List String))) :
    List String :=
  probeResults.foldl
    (fun acc r =>
      match r with
      | Except.ok ips => ips.foldl addIp acc
      | Except.error _ => acc)
    []

/-- `CameraDiscovery.discover_cameras(network_range)`.  The three
broadcast probes and (when a network range is given) the subnet scan each
contribute a candidate set or, if they raised, nothing; each candidate IP
is then probed and failing probes are dropped.  The `Except` result type
records fatal failure: no code path of the source produces one. -/
def discoverCameras (upnp bonjour adp : Except String (List String))
    (parsedNetwork : Option (Except String (List String)))
    (portProbe : String → Bool)
    (probe : String → Option AxisCamera) : Except String (List AxisCamera) :=
  let results := [upnp, bonjour, adp] ++
    (match parsedNetwork with
     | some p => [Except.ok (networkScan p portProbe)]
     | none => [])
  let discoveredIps := unionIps results
  Except.ok ((discoveredIps.map probe).foldl
    (fun acc c =>
      match c with
      | some cam => acc ++ [cam]
      | none => acc)
    [])

/-! ## EndpointNegotiator: `WebSocketConfigurator.find_optimal_endpoint`

From `src/auto-config/websocket_configurator.py` lines 241-256.  Latency
is a wall-clock millisecond measurement (a Python float); it is embedded
as a rational number.  `valid_endpoints.sort(key=lambda x: x.latency)` is
a stable sort, embedded as insertion sort.
-/

/-- The `WebSocketConfig` dataclass. -/
structure WebSocketConfig where
  url : String
  protocol : String
  path : String
  params : List (String × String)
  auth_type : String
  ssl_verify : Bool
  validated : Bool := false
  latency : ℚ := 0
  error : Option String := none
deriving DecidableEq, Repr

/-- Stable insertion into a latency-sorted list. -/
def insertByLatency (x : WebSocketConfig) :
    List WebSocketConfig → List WebSocketConfig
  | [] => [x]
  | y :: ys =>
      if y.latency ≤ x.latency then y :: insertByLatency x ys else x :: y :: ys

/-- Stable sort by latency (`list.sort(key=lambda x: x.latency)`). -/
def sortByLatency : List WebSocketConfig → List WebSocketConfig
  | [] => []
  | x :: xs => insertByLatency x (sortByLatency xs)

/-- `WebSocketConfigurator.find_optimal_endpoint(endpoints)`: keep the
validated candidates, sort them by latency, and return the first secure
(`wss`) one if any, else the overall first; `none` when nothing is
validated. -/
def find_optimal_endpoint (endpoints : List WebSocketConfig) :
    Option WebSocketConfig :=
  let valid_endpoints := endpoints.filter (·.validated)
  if valid_endpoints.isEmpty then none
  else
    let sorted := sortByLatency valid_endpoints
    let secure_endpoints := sorted.filter (·.protocol = "wss")
    match secure_endpoints.head? with
    | some s => some s
    | none => sorted.head?

/-! ## CertificateTrustManager: `CertificateManager._parse_certificate`

From `src/auto-config/certificate_manager.py` lines 117-187.  An X.509
name is embedded as its ordered attribute list (pairs of attribute type
and value); `datetime` instants are embedded as integers, compared with
the same order.  Missing SAN or KeyUsage extensions are wrapped in
`try/except` by the source and default to empty; they are embedded as an
empty SAN list and an absent-KeyUsage flag.  When a name has no CN
attribute the source raises `IndexError` out of `_parse_certificate`
(the caller then skips the host), embedded as `none`.
-/

/-- An X.509 distinguished name: ordered attribute list. -/
structure X509Name where
  rdns : List (String × String)
deriving DecidableEq, Repr

/-- All CN attribute values of a name, in order
(`get_attributes_for_oid(NameOID.COMMON_NAME)`). -/
def commonNames (n : X509Name) : List String :=
  (n.rdns.filter (·.1 = "CN")).map (·.2)

/-- The inputs `_parse_certificate` reads off an `x509.Certificate`. -/
structure X509CertData where
  subject : X509Name
  issuer : X509Name
  serial_number : Int
  not_valid_before : Int
  not_valid_after : Int
  fingerprintHex : String
  san_names : List String
  ku_present : Bool
  ku_digital_signature : Bool
  ku_key_encipherment : Bool
  ku_key_agreement : Bool
deriving DecidableEq, Repr

/-- The `Certificate` dataclass. -/
structure Certificate where
  subject : String
  issuer : String
  serial_number : String
  not_before : Int
  not_after : Int
  fingerprint : String
  is_self_signed : Bool
  is_valid : Bool
  validation_errors : List String
  san_names : List String
  key_usage : List String
deriving DecidableEq, Repr

/-- `CertificateManager._parse_certificate(cert, host)` with the scan
instant `now` explicit. -/
def parseCertificate (cert : X509CertData) (now : Int) (host : String) :
    Option Certificate :=
  match commonNames cert.subject, commonNames cert.issuer with
  | subjectCN :: _, issuerCN :: _ =>
    let is_self_signed := cert.subject = cert.issuer
    let san_names := cert.san_names
    let key_usage :=
      if cert.ku_present then
        (if cert.ku_digital_signature then ["Digital Signature"] else []) ++
        (if cert.ku_key_encipherment then ["Key Encipherment"] else []) ++
        (if cert.ku_key_agreement then ["Key Agreement"] else [])
      else []
    let validation_errors0 : List String := []
    let validation_errors1 :=
      if now < cert.not_valid_before then
        validation_errors0 ++ ["Certificate not yet valid"]
      else validation_errors0
    let is_valid1 := if now < cert.not_valid_before then false else true
    let validation_errors2 :=
      if now > cert.not_valid_after then
        validation_errors1 ++ ["Certificate expired"]
      else validation_errors1
    let is_valid2 := if now > cert.not_valid_after then false else is_valid1
    let validation_errors3 :=
      if ¬ host ∈ san_names ∧ host ≠ subjectCN then
        validation_errors2 ++ ["Hostname " ++ host ++ " not in certificate"]
      else validation_errors2
    let is_valid3 :=
      if ¬ host ∈ san_names ∧ host ≠ subjectCN then false else is_valid2
    some { subject := subjectCN, issuer := issuerCN,
           serial_number := toString cert.serial_number,
           not_before := cert.not_valid_before,
           not_after := cert.not_valid_after,
           fingerprint := cert.fingerprintHex,
           is_self_signed := is_self_signed, is_valid := is_valid3,
           validation_errors := validation_errors3, san_names := san_names,
           key_usage := key_usage }
  | _, _ => none

/-! ## HealthMonitor

From `src/auto-config/health_monitor.py`.  The asyncio scheduling model
is cooperative: code between two `await` points runs atomically.  In
`_perform_recovery` the guard (`if check.name in self.recovery_in_progress:
return`), the flag assignment (`self.recovery_in_progress[check.name] =
True`) and the `recovery_started` alert append all precede the first
`await`; they form one atomic step.  Everything from the execution of
`check.recovery_fn` to the `finally` clause
(`self.recovery_in_progress[check.name] = False`) forms the remainder of
the task.  Note that the `finally` clause assigns `False` to the key; it
does not remove the key from the dict.

The alert dict appended at the start is later mutated in place
(`alert['action'] = 'recovery_succeeded' / 'recovery_failed'`); the
embedding keeps a log of alert enqueue events, recording the action each
alert carried when it was appended, which is what the single-flight
claim counts.  The recovery outcome (success, failure, or a raised
exception caught by the `except` clause) does not change any state the
claims observe: the `finally` clause runs the same flag assignment in
all three cases.
-/

inductive HealthStatus
  | healthy
  | degraded
  | unhealthy
  | critical
  | unknown
deriving DecidableEq, Repr, Fintype

/-- The `HealthCheck` dataclass (the check and recovery callables are
represented by their presence; `recovery_fn` by the flag
`hasRecoveryFn`). -/
structure HealthCheck where
  name : String
  interval : Nat := 30
  timeout : Nat := 10
  retries : Int := 3
  hasRecoveryFn : Bool := false
  last_status : HealthStatus := HealthStatus.unknown
  consecutive_failures : Int := 0
  error_message : String := ""
deriving DecidableEq, Repr

/-- One alert enqueue event (timestamp omitted: environment data). -/
structure Alert where
  check_name : String
  status : HealthStatus
  error : String
  action : String
deriving DecidableEq, Repr

/-- The monitor state the recovery machinery touches:
`self.recovery_in_progress` (a Python dict from check name to bool), the
log of alert enqueue events, and the ghost log of recovery-function
executions. -/
structure MonitorState where
  recovery_in_progress : List (String × Bool)
  alertLog : List Alert
  recoveryRuns : List String
deriving DecidableEq, Repr

/-- Atomic prefix of `_perform_recovery`: membership guard, flag
assignment, `recovery_started` alert append, and the start of the
recovery-function execution (the `await` expression is entered inside the
same atomic block).  Returns the new state and whether the task
proceeded past the guard. -/
def recoveryPhaseA (check : HealthCheck) (s : MonitorState) :
    MonitorState × Bool :=
  if pyDictContains s.recovery_in_progress check.name then (s, false)
  else
    ({ s with
        recovery_in_progress := pyDictSet s.recovery_in_progress check.name true,
        alertLog := s.alertLog ++
          [{ check_name := check.name, status := check.last_status,
             error := check.error_message, action := "recovery_started" }],
        recoveryRuns := s.recoveryRuns ++ [check.name] },
     true)

/-- Remainder of `_perform_recovery` after the recovery function
finishes (or raises): the `finally` clause assigns `False` to the key —
the key itself stays in the dict. -/
def recoveryPhaseB (check : HealthCheck) (s : MonitorState) : MonitorState :=
  { s with
      recovery_in_progress := pyDictSet s.recovery_in_progress check.name false }

/-- Program counter of one spawned `_perform_recovery` task: `0` = before
the atomic prefix, `1` = recovery function in flight, `2` = finished (or
returned early at the guard). -/
structure TwoTasks where
  mon : MonitorState
  t1 : Nat
  t2 : Nat
deriving DecidableEq, Repr

/-- Advance one task by one atomic step. -/
def stepTask (check : HealthCheck) (mon : MonitorState) (pc : Nat) :
    MonitorState × Nat :=
  match pc with
  | 0 =>
      let (m, proceeded) := recoveryPhaseA check mon
      (m, if proceeded then 1 else 2)
  | 1 => (recoveryPhaseB check mon, 2)
  | _ => (mon, pc)

/-- One scheduler step: `true` runs task 1, `false` runs task 2. -/
def stepTwo (check : HealthCheck) (s : TwoTasks) (t : Bool) : TwoTasks :=
  if t then
    let (m, pc) := stepTask check s.mon s.t1
    { s with mon := m, t1 := pc }
  else
    let (m, pc) := stepTask check s.mon s.t2
    { s with mon := m, t2 := pc }

/-- Run a schedule (list of task choices). -/
def runSched (check : HealthCheck) (s : TwoTasks) (l : List Bool) : TwoTasks :=
  l.foldl (stepTwo check) s

/-- Number of recovery executions currently in flight. -/
def inFlight (s : TwoTasks) : Nat :=
  (if s.t1 = 1 then 1 else 0) + (if s.t2 = 1 then 1 else 0)

/-- All boolean lists of length `n` (used to enumerate every
interleaving of two two-step tasks). -/
def boolLists : Nat → List (List Bool)
  | 0 => [[]]
  | n + 1 =>
      (boolLists n).map (true :: ·) ++ (boolLists n).map (false :: ·)

/-- A `camera_connectivity` check in the state the recovery trigger
condition requires: a recovery function, `retries` consecutive
non-healthy classifications just observed. -/
def cameraCheck : HealthCheck :=
  { name := "camera_connectivity", interval := 60, retries := 3,
    hasRecoveryFn := true, last_status := HealthStatus.unhealthy,
    consecutive_failures := 3, error_message := "connection failed" }

/-- Monitor state with no recovery ever started (the qualifying condition
`check.name not in self.recovery_in_progress` under which both loop
iterations spawned their task). -/
def monInit : MonitorState :=
  { recovery_in_progress := [], alertLog := [], recoveryRuns := [] }

/-- Both `_perform_recovery` tasks freshly spawned. -/
def twoTasksInit : TwoTasks := { mon := monInit, t1 := 0, t2 := 0 }

/-! ### The per-check loop `_run_health_check_loop`, sequential schedule

One iteration classifies, mutates the counters, and possibly spawns a
recovery task.  For the claims about the failure counter and about
re-triggering after a completed recovery, the spawned task is run to
completion within the step (a sequential schedule).  A `bodyError` event
models an exception escaping the `try` block of the loop body itself
(status set to UNKNOWN, message recorded, counter untouched).
-/

structure LoopState where
  check : HealthCheck
  mon : MonitorState
deriving DecidableEq, Repr

inductive LoopEvent
  | classify (st : HealthStatus) (errSet : Option String)
  | bodyError (msg : String)
deriving DecidableEq, Repr

/-- One iteration of `_run_health_check_loop`.  `classify st errSet`
models `_run_health_check` returning `st`, with `errSet` the
`check.error_message` assignment its timeout/exception branches perform
before returning (`none` when the check function returned normally). -/
def loopIter (s : LoopState) : LoopEvent → LoopState
  | LoopEvent.classify st errSet =>
    let c :=
      match errSet with
      | some msg => { s.check with error_message := msg }
      | none => s.check
    let c := { c with last_status := st }
    if st ≠ HealthStatus.healthy then
      let c := { c with consecutive_failures := c.consecutive_failures + 1 }
      if c.hasRecoveryFn ∧ c.consecutive_failures ≥ c.retries ∧
          ¬ pyDictContains s.mon.recovery_in_progress c.name then
        let (m, proceeded) := recoveryPhaseA c s.mon
        { check := c, mon := if proceeded then recoveryPhaseB c m else m }
      else { check := c, mon := s.mon }
    else
      { check := { c with consecutive_failures := 0, error_message := "" },
        mon := s.mon }
  | LoopEvent.bodyError msg =>
    let c := { s.check with
               last_status := HealthStatus.unknown,
               error_message := msg }
    { s with check := c }

/-- Run a sequence of loop iterations. -/
def runLoop (s : LoopState) (events : List LoopEvent) : LoopState :=
  events.foldl loopIter s

/-! ### Aggregate status: `get_health_status` -/

/-- One step of the overall-status fold in `get_health_status` (the
`if/elif` chain over `check.last_status`). -/
def overallStep (overall : HealthStatus) (st : HealthStatus) : HealthStatus :=
  if st = HealthStatus.critical then HealthStatus.critical
  else if st = HealthStatus.unhealthy ∧ overall ≠ HealthStatus.critical then
    HealthStatus.unhealthy
  else if st = HealthStatus.degraded ∧ overall = HealthStatus.healthy then
    HealthStatus.degraded
  else overall

/-- The `overall_status` computed by `get_health_status` over the
registered checks (name, `last_status`) in registration order, starting
from HEALTHY. -/
def getOverallStatus (checks : List (String × HealthStatus)) : HealthStatus :=
  (checks.map Prod.snd).foldl overallStep HealthStatus.healthy

/-- Specification-side severity rank: `CRITICAL > UNHEALTHY > DEGRADED >
HEALTHY`. -/
def statusRank : HealthStatus → Nat
  | HealthStatus.critical => 3
  | HealthStatus.unhealthy => 2
  | HealthStatus.degraded => 1
  | _ => 0

/-- Inverse of `statusRank` on the four ranked statuses. -/
def rankStatus : Nat → HealthStatus
  | 3 => HealthStatus.critical
  | 2 => HealthStatus.unhealthy
  | 1 => HealthStatus.degraded
  | _ => HealthStatus.healthy

/-- Specification-side worst status: the maximum severity among the
non-UNKNOWN statuses, HEALTHY when there is none. -/
def worstStatus (l : List HealthStatus) : HealthStatus :=
  rankStatus
    (((l.filter (· ≠ HealthStatus.unknown)).map statusRank).foldl max 0)

/-! ### Concrete fixtures used by the claim theorems and witnesses -/

/-- Validated `wss` candidate with 100 ms latency. -/
def wssHundred : WebSocketConfig :=
  { url := "wss://192.168.1.100/ws", protocol := "wss", path := "/ws",
    params := [], auth_type := "basic", ssl_verify := false,
    validated := true, latency := 100 }

/-- Validated `ws` candidate with 10 ms latency. -/
def wsTen : WebSocketConfig :=
  { url := "ws://192.168.1.100/websocket", protocol := "ws",
    path := "/websocket", params := [], auth_type := "basic",
    ssl_verify := false, validated := true, latency := 10 }

/-- Validated `wss` candidate with 50 ms latency. -/
def wssFifty : WebSocketConfig :=
  { url := "wss://192.168.1.100/axis-cgi/websocket", protocol := "wss",
    path := "/axis-cgi/websocket", params := [], auth_type := "digest",
    ssl_verify := false, validated := true, latency := 50 }

/-- The `camera_connectivity` check as registered (fresh state). -/
def freshCameraCheck : HealthCheck :=
  { name := "camera_connectivity", interval := 60, retries := 3,
    hasRecoveryFn := true }

/-- A self-signed certificate (subject equals issuer) whose
`not_valid_after` lies in the past relative to the scan instant used in
the theorems, presented for host 192.168.1.50 with a SAN list that does
not contain that host. -/
def expiredSelfSignedCert : X509CertData :=
  { subject := { rdns := [("CN", "axis-device.local")] },
    issuer := { rdns := [("CN", "axis-device.local")] },
    serial_number := 77,
    not_valid_before := 0,
    not_valid_after := 100,
    fingerprintHex := "ab12",
    san_names := ["othername"],
    ku_present := true,
    ku_digital_signature := true,
    ku_key_encipherment := true,
    ku_key_agreement := false }

/-! # Theorems -/

/-- RFC 1321 test vector: MD5 of the empty string. -/
example : MD5.md5hex "" = "d41d8cd98f00b204e9800998ecf8427e" := by decide

/-- RFC 1321 test vector: MD5 of the string abc. -/
example : MD5.md5hex "abc" = "900150983cd24fb0d6963f7d28e17f72" := by decide

/-! ## Sorting lemmas for endpoint selection -/

theorem mem_insertByLatency {a x : WebSocketConfig}
    {l : List WebSocketConfig} :
    a ∈ insertByLatency x l ↔ a = x ∨ a ∈ l := by
  induction l with
  | nil => simp [insertByLatency]
  | cons y ys ih =>
      simp only [insertByLatency]
      split
      · simp only [List.mem_cons, ih]
        tauto
      · simp only [List.mem_cons]

theorem mem_sortByLatency {a : WebSocketConfig} {l : List WebSocketConfig} :
    a ∈ sortByLatency l ↔ a ∈ l := by
  induction l with
  | nil => simp [sortByLatency]
  | cons x xs ih => simp [sortByLatency, mem_insertByLatency, ih]

theorem pairwise_insertByLatency {x : WebSocketConfig}
    {l : List WebSocketConfig}
    (h : l.Pairwise (fun a b => a.latency ≤ b.latency)) :
    (insertByLatency x l).Pairwise (fun a b => a.latency ≤ b.latency) := by
  induction l with
  | nil => simp [insertByLatency]
  | cons y ys ih =>
      rcases List.pairwise_cons.mp h with ⟨hy, hys⟩
      simp only [insertByLatency]
      split
      · rename_i hle
        refine List.pairwise_cons.mpr ⟨?_, ih hys⟩
        intro b hb
        rcases mem_insertByLatency.mp hb with rfl | hb
        · exact hle
        · exact hy b hb
      · rename_i hgt
        push_neg at hgt
        refine List.pairwise_cons.mpr ⟨?_, h⟩
        intro b hb
        rcases List.mem_cons.mp hb with rfl | hb
        · exact le_of_lt hgt
        · exact le_trans (le_of_lt hgt) (hy b hb)

theorem pairwise_sortByLatency (l : List WebSocketConfig) :
    (sortByLatency l).Pairwise (fun a b => a.latency ≤ b.latency) := by
  induction l with
  | nil => simp [sortByLatency]
  | cons x xs ih => exact pairwise_insertByLatency ih

/-- C2.  For every list of endpoint candidates, `find_optimal_endpoint`
returns no endpoint iff no candidate is validated (not an error);
otherwise it returns a validated candidate from the list, with protocol
`wss` whenever any validated `wss` candidate exists, and of minimum
latency within its security tier; from the validated candidates
wss/100ms, ws/10ms, wss/50ms it returns the wss/50ms one. -/
theorem C2_optimal_endpoint_selection :
    (∀ endpoints : List WebSocketConfig,
      (find_optimal_endpoint endpoints = none ↔
        ∀ ep ∈ endpoints, ep.validated = false) ∧
      (∀ c, find_optimal_endpoint endpoints = some c →
        c ∈ endpoints ∧ c.validated = true ∧
        ((∃ ep ∈ endpoints, ep.validated = true ∧ ep.protocol = "wss") →
          c.protocol = "wss") ∧
        (∀ ep ∈ endpoints, ep.validated = true → ep.protocol = c.protocol →
          c.latency ≤ ep.latency))) ∧
    find_optimal_endpoint [wssHundred, wsTen, wssFifty] = some wssFifty := by
  constructor
  · intro endpoints
    constructor
    · constructor
      · intro hnone ep hep
        by_contra hval
        simp only [Bool.not_eq_false] at hval
        have hmem : ep ∈ endpoints.filter (·.validated) :=
          List.mem_filter.mpr ⟨hep, hval⟩
        have hne : ¬ (endpoints.filter (·.validated)).isEmpty := by
          intro h
          rw [List.isEmpty_iff] at h
          rw [h] at hmem
          exact List.not_mem_nil ep hmem
        simp only [find_optimal_endpoint, if_neg hne] at hnone
        have hsort : ep ∈ sortByLatency (endpoints.filter (·.validated)) :=
          mem_sortByLatency.mpr hmem
        rcases hsorted : sortByLatency (endpoints.filter (·.validated)) with
          _ | ⟨s, rest⟩
        · rw [hsorted] at hsort
          exact List.not_mem_nil ep hsort
        · rw [hsorted] at hnone
          rcases hhead : ((s :: rest).filter (·.protocol = "wss")).head? with
            _ | ⟨w⟩
          · rw [hhead] at hnone
            simp at hnone
          · rw [hhead] at hnone
            simp at hnone
      · intro hall
        have : endpoints.filter (·.validated) = [] :=
          List.filter_eq_nil_iff.mpr (fun a ha => by simp [hall a ha])
        simp [find_optimal_endpoint, this]
    · intro c hc
      simp only [find_optimal_endpoint] at hc
      split at hc
      · exact absurd hc (by simp)
      · rename_i hne
        rcases hhead : ((sortByLatency (endpoints.filter (·.validated))).filter
            (·.protocol = "wss")).head? with _ | ⟨w⟩
        · -- no validated wss candidate: the head of the sorted valid list
          rw [hhead] at hc
          simp only at hc
          have hcs : c ∈ sortByLatency (endpoints.filter (·.validated)) :=
            List.mem_of_mem_head? hc
          have hcf : c ∈ endpoints.filter (·.validated) :=
            mem_sortByLatency.mp hcs
          have hcmem := (List.mem_filter.mp hcf).1
          have hcval := (List.mem_filter.mp hcf).2
          refine ⟨hcmem, by simpa using hcval, ?_, ?_⟩
          · intro ⟨ep, hep, hval, hwss⟩
            have : ep ∈ (sortByLatency (endpoints.filter (·.validated))).filter
                (·.protocol = "wss") := by
              refine List.mem_filter.mpr ⟨?_, by simp [hwss]⟩
              exact mem_sortByLatency.mpr (List.mem_filter.mpr ⟨hep, hval⟩)
            rw [List.head?_eq_none_iff.mp hhead] at this
            exact absurd this (List.not_mem_nil ep)
          · intro ep hep hval _
            have hes : ep ∈ sortByLatency (endpoints.filter (·.validated)) :=
              mem_sortByLatency.mpr (List.mem_filter.mpr ⟨hep, hval⟩)
            rcases hsorted : sortByLatency (endpoints.filter (·.validated)) with
              _ | ⟨s, rest⟩
            · rw [hsorted] at hes
              exact absurd hes (List.not_mem_nil ep)
            · rw [hsorted] at hc hes
              have hcs' : s = c := by simpa using hc
              subst hcs'
              have hp := pairwise_sortByLatency (endpoints.filter (·.validated))
              rw [hsorted] at hp
              rcases List.mem_cons.mp hes with rfl | hes
              · exact le_refl _
              · exact (List.pairwise_cons.mp hp).1 ep hes
        · -- a validated wss candidate exists: the head of the secure sublist
          rw [hhead] at hc
          simp only [Option.some.injEq] at hc
          subst hc
          have hwmem : w ∈ (sortByLatency (endpoints.filter (·.validated))).filter
              (·.protocol = "wss") := List.mem_of_mem_head? hhead
          have hwss : w.protocol = "wss" := by
            simpa using (List.mem_filter.mp hwmem).2
          have hws : w ∈ sortByLatency (endpoints.filter (·.validated)) :=
            (List.mem_filter.mp hwmem).1
          have hwf : w ∈ endpoints.filter (·.validated) := mem_sortByLatency.mp hws
          refine ⟨(List.mem_filter.mp hwf).1, by simpa using (List.mem_filter.mp hwf).2,
            fun _ => hwss, ?_⟩
          intro ep hep hval hproto
          have hepsec : ep ∈ (sortByLatency (endpoints.filter (·.validated))).filter
              (·.protocol = "wss") := by
            refine List.mem_filter.mpr ⟨?_, by simp [hproto, hwss]⟩
            exact mem_sortByLatency.mpr (List.mem_filter.mpr ⟨hep, hval⟩)
          have hpsec : ((sortByLatency (endpoints.filter (·.validated))).filter
              (·.protocol = "wss")).Pairwise (fun a b => a.latency ≤ b.latency) :=
            List.Pairwise.filter _ (pairwise_sortByLatency _)
          rcases hsec : (sortByLatency (endpoints.filter (·.validated))).filter
              (·.protocol = "wss") with _ | ⟨s, rest⟩
          · rw [hsec] at hepsec
            exact absurd hepsec (List.not_mem_nil ep)
          · rw [hsec] at hhead hepsec hpsec
            have hws' : s = w := by simpa using hhead
            subst hws'
            rcases List.mem_cons.mp hepsec with rfl | hepsec
            · exact le_refl _
            · exact (List.pairwise_cons.mp hpsec).1 ep hepsec
  · decide

/-- Witness for C2 at the concrete candidate triple. -/
theorem C2_witness :
    wssFifty ∈ [wssHundred, wsTen, wssFifty] ∧ wssFifty.validated = true ∧
    ((∃ ep ∈ [wssHundred, wsTen, wssFifty], ep.validated = true ∧
        ep.protocol = "wss") → wssFifty.protocol = "wss") ∧
    (∀ ep ∈ [wssHundred, wsTen, wssFifty], ep.validated = true →
      ep.protocol = wssFifty.protocol → wssFifty.latency ≤ ep.latency) :=
  (C2_optimal_endpoint_selection.1 [wssHundred, wsTen, wssFifty]).2 wssFifty
    C2_optimal_endpoint_selection.2

/-! ## Aggregate status lemmas -/

theorem overallStep_unknown (o : HealthStatus) :
    overallStep o HealthStatus.unknown = o := by
  cases o <;> rfl

theorem overallStep_rank :
    ∀ o st : HealthStatus, o ≠ HealthStatus.unknown →
      st ≠ HealthStatus.unknown →
      overallStep o st ≠ HealthStatus.unknown ∧
      statusRank (overallStep o st) = max (statusRank o) (statusRank st) := by
  decide

theorem rankStatus_statusRank :
    ∀ o : HealthStatus, o ≠ HealthStatus.unknown →
      rankStatus (statusRank o) = o := by
  decide

theorem foldl_overallStep (l : List HealthStatus) :
    ∀ o : HealthStatus, o ≠ HealthStatus.unknown →
      l.foldl overallStep o =
        rankStatus (((l.filter (· ≠ HealthStatus.unknown)).map
          statusRank).foldl max (statusRank o)) := by
  induction l with
  | nil =>
      intro o ho
      simp [rankStatus_statusRank o ho]
  | cons st l ih =>
      intro o ho
      by_cases hst : st = HealthStatus.unknown
      · subst hst
        have hf : (HealthStatus.unknown :: l).filter
            (· ≠ HealthStatus.unknown) = l.filter (· ≠ HealthStatus.unknown) := by
          simp
        rw [hf, List.foldl_cons, overallStep_unknown, ih o ho]
      · have h := overallStep_rank o st ho hst
        simp only [List.foldl_cons]
        rw [ih _ h.1]
        have hfilter : (st :: l).filter (· ≠ HealthStatus.unknown) =
            st :: l.filter (· ≠ HealthStatus.unknown) := by
          simp [List.filter_cons, hst]
        rw [hfilter]
        simp only [List.map_cons, List.foldl_cons]
        rw [h.2]

/-- C6 fails on the code: a single registered check whose `last_status`
is UNKNOWN yields overall status HEALTHY (the fold starts from HEALTHY
and UNKNOWN never changes it), not UNKNOWN as the claim requires when
UNKNOWN is the only status present. -/
theorem C6_counterexample :
    getOverallStatus [("certificate_validity", HealthStatus.unknown)] =
      HealthStatus.healthy ∧
    HealthStatus.healthy ≠ HealthStatus.unknown := by
  decide

/-- C6 (amended).  The overall status equals the worst of the non-UNKNOWN
`last_status` values under CRITICAL > UNHEALTHY > DEGRADED > HEALTHY;
UNKNOWN never affects the result, and when every status is UNKNOWN (or
there are no checks) the overall status is HEALTHY.  Checks
HEALTHY/DEGRADED/CRITICAL yield CRITICAL; dropping the critical one
yields DEGRADED. -/
theorem C6_overall_is_worst :
    (∀ checks : List (String × HealthStatus),
      getOverallStatus checks = worstStatus (checks.map Prod.snd)) ∧
    getOverallStatus [("A", HealthStatus.healthy),
      ("B", HealthStatus.degraded), ("C", HealthStatus.critical)] =
      HealthStatus.critical ∧
    getOverallStatus [("A", HealthStatus.healthy),
      ("B", HealthStatus.degraded)] = HealthStatus.degraded := by
  refine ⟨?_, by decide, by decide⟩
  intro checks
  unfold getOverallStatus worstStatus
  exact foldl_overallStep _ HealthStatus.healthy (by decide)

/-! ## Single-flight recovery -/

/-- C3.  Two `_perform_recovery` tasks for the same check are spawned
concurrently (both loop iterations observed the qualifying condition).
Over every interleaving of their atomic steps: the recovery function
executes exactly once, exactly one alert with action `recovery_started`
is enqueued, both tasks terminate, and at no point is more than one
recovery execution for the check in flight. -/
theorem C3_single_flight :
    ∀ l ∈ boolLists 4, l.count true = 2 →
      (runSched cameraCheck twoTasksInit l).mon.recoveryRuns =
        ["camera_connectivity"] ∧
      ((runSched cameraCheck twoTasksInit l).mon.alertLog.filter
        (fun a => a.action = "recovery_started")).length = 1 ∧
      (runSched cameraCheck twoTasksInit l).t1 = 2 ∧
      (runSched cameraCheck twoTasksInit l).t2 = 2 ∧
      ∀ k ∈ List.range 5,
        inFlight (runSched cameraCheck twoTasksInit (l.take k)) ≤ 1 := by
  decide

/-- Witness for C3 at the interleaving task1-prefix, task2-prefix,
task1-finish, task2-finish. -/
theorem C3_witness :
    (runSched cameraCheck twoTasksInit [true, false, true, false]).mon.recoveryRuns =
      ["camera_connectivity"] ∧
    ((runSched cameraCheck twoTasksInit [true, false, true, false]).mon.alertLog.filter
      (fun a => a.action = "recovery_started")).length = 1 ∧
    (runSched cameraCheck twoTasksInit [true, false, true, false]).t1 = 2 ∧
    (runSched cameraCheck twoTasksInit [true, false, true, false]).t2 = 2 ∧
    ∀ k ∈ List.range 5,
      inFlight (runSched cameraCheck twoTasksInit
        ([true, false, true, false].take k)) ≤ 1 :=
  C3_single_flight [true, false, true, false] (by decide) (by decide)

/-- C4 is right about the intended behaviour and the code is wrong: after
six consecutive UNHEALTHY classifications of a check with retries = 3 and
a recovery function, the recovery function has executed exactly once (at
the third), the failure counter is back above the retry threshold, the
finally-clause of `_perform_recovery` has set the flag value to False —
yet the key `camera_connectivity` remains in `recovery_in_progress`, so
the trigger conjunct `check.name not in self.recovery_in_progress` is
false forever and no second recovery is ever spawned.  The own code of
the monitor treats the dict keys as the set of in-flight recoveries
(`get_health_status` reports `list(self.recovery_in_progress.keys())` as
`recovery_in_progress`), so assigning False without removing the key
contradicts that reading. -/
theorem C4_recovery_never_retriggers :
    (runLoop { check := freshCameraCheck, mon := monInit }
      (List.replicate 6
        (LoopEvent.classify HealthStatus.unhealthy none))).mon.recoveryRuns =
      ["camera_connectivity"] ∧
    (runLoop { check := freshCameraCheck, mon := monInit }
      (List.replicate 6
        (LoopEvent.classify HealthStatus.unhealthy none))).check.consecutive_failures = 6 ∧
    (runLoop { check := freshCameraCheck, mon := monInit }
      (List.replicate 6
        (LoopEvent.classify HealthStatus.unhealthy none))).mon.recovery_in_progress =
      [("camera_connectivity", false)] ∧
    pyDictContains
      (runLoop { check := freshCameraCheck, mon := monInit }
        (List.replicate 6
          (LoopEvent.classify HealthStatus.unhealthy none))).mon.recovery_in_progress
      "camera_connectivity" = true := by
  decide

/-! ## Failure counter lemmas -/

theorem loopIter_classify_unhealthy (s : LoopState) (st : HealthStatus)
    (err : Option String) (hst : st ≠ HealthStatus.healthy) :
    (loopIter s (LoopEvent.classify st err)).check.consecutive_failures =
      s.check.consecutive_failures + 1 := by
  simp only [loopIter]
  cases err <;> dsimp only <;> rw [if_pos hst] <;> split <;> dsimp

theorem loopIter_classify_healthy (s : LoopState) (err : Option String) :
    (loopIter s (LoopEvent.classify HealthStatus.healthy err)).check.consecutive_failures = 0 ∧
    (loopIter s (LoopEvent.classify HealthStatus.healthy err)).check.error_message = "" := by
  simp only [loopIter]
  cases err <;> dsimp only <;> exact ⟨rfl, rfl⟩

theorem loopIter_cf_nonneg (s : LoopState) (e : LoopEvent)
    (h : 0 ≤ s.check.consecutive_failures) :
    0 ≤ (loopIter s e).check.consecutive_failures := by
  cases e with
  | classify st err =>
      by_cases hst : st = HealthStatus.healthy
      · subst hst
        rw [(loopIter_classify_healthy s err).1]
      · rw [loopIter_classify_unhealthy s st err hst]
        omega
  | bodyError msg => simpa [loopIter] using h

theorem runLoop_cf_nonneg (events : List LoopEvent) :
    ∀ s : LoopState, 0 ≤ s.check.consecutive_failures →
      0 ≤ (runLoop s events).check.consecutive_failures := by
  induction events with
  | nil => intro s h; exact h
  | cons e es ih =>
      intro s h
      exact ih (loopIter s e) (loopIter_cf_nonneg s e h)

/-- C8.  From a freshly registered check (counter 0), in every reachable
loop state the failure counter is non-negative; every non-HEALTHY
classification increments it by exactly one; every HEALTHY
classification resets it to 0 and clears the error message. -/
theorem C8_consecutive_failures :
    ∀ (events : List LoopEvent) (c0 : HealthCheck) (m0 : MonitorState),
      c0.consecutive_failures = 0 →
      (0 ≤ (runLoop ⟨c0, m0⟩ events).check.consecutive_failures) ∧
      (∀ st err, st ≠ HealthStatus.healthy →
        (loopIter (runLoop ⟨c0, m0⟩ events)
          (LoopEvent.classify st err)).check.consecutive_failures =
          (runLoop ⟨c0, m0⟩ events).check.consecutive_failures + 1) ∧
      (∀ err,
        (loopIter (runLoop ⟨c0, m0⟩ events)
          (LoopEvent.classify HealthStatus.healthy err)).check.consecutive_failures = 0 ∧
        (loopIter (runLoop ⟨c0, m0⟩ events)
          (LoopEvent.classify HealthStatus.healthy err)).check.error_message = "") := by
  intro events c0 m0 h0
  refine ⟨runLoop_cf_nonneg events ⟨c0, m0⟩ (by simp [h0]), ?_, ?_⟩
  · intro st err hst
    exact loopIter_classify_unhealthy _ st err hst
  · intro err
    exact loopIter_classify_healthy _ err

/-- Witness for C8: one UNHEALTHY classification of the fresh
`camera_connectivity` check. -/
theorem C8_witness :
    (0 ≤ (runLoop ⟨freshCameraCheck, monInit⟩
      [LoopEvent.classify HealthStatus.unhealthy none]).check.consecutive_failures) ∧
    (loopIter (runLoop ⟨freshCameraCheck, monInit⟩
      [LoopEvent.classify HealthStatus.unhealthy none])
      (LoopEvent.classify HealthStatus.unhealthy none)).check.consecutive_failures =
      (runLoop ⟨freshCameraCheck, monInit⟩
        [LoopEvent.classify HealthStatus.unhealthy none]).check.consecutive_failures + 1 ∧
    (loopIter (runLoop ⟨freshCameraCheck, monInit⟩
      [LoopEvent.classify HealthStatus.unhealthy none])
      (LoopEvent.classify HealthStatus.healthy none)).check.consecutive_failures = 0 :=
  ⟨(C8_consecutive_failures [LoopEvent.classify HealthStatus.unhealthy none]
      freshCameraCheck monInit rfl).1,
   (C8_consecutive_failures [LoopEvent.classify HealthStatus.unhealthy none]
      freshCameraCheck monInit rfl).2.1 HealthStatus.unhealthy none (by decide),
   ((C8_consecutive_failures [LoopEvent.classify HealthStatus.unhealthy none]
      freshCameraCheck monInit rfl).2.2 none).1⟩

/-! ## Certificate validation lemmas -/

theorem hostMsg_ne_notYetValid (host : String) :
    "Hostname " ++ host ++ " not in certificate" ≠
      "Certificate not yet valid" := by
  intro h
  have hlen := congrArg String.length h
  rw [String.length_append, String.length_append] at hlen
  have h1 : "Hostname ".length = 9 := by decide
  have h2 : " not in certificate".length = 19 := by decide
  have h3 : "Certificate not yet valid".length = 25 := by decide
  omega

theorem hostMsg_ne_expired (host : String) :
    "Hostname " ++ host ++ " not in certificate" ≠ "Certificate expired" := by
  intro h
  have hlen := congrArg String.length h
  rw [String.length_append, String.length_append] at hlen
  have h1 : "Hostname ".length = 9 := by decide
  have h2 : " not in certificate".length = 19 := by decide
  have h3 : "Certificate expired".length = 19 := by decide
  omega

/-- C5.  For every parsed certificate, scan instant and host:
`validation_errors` contains the not-yet-valid entry iff `now <
not_before`, the expired entry iff `now > not_after`, and the
hostname-mismatch entry iff the host is absent from the SAN list and
differs from the subject CN; the checks accumulate without
short-circuiting (each membership is equivalent to its own condition,
independently of the others); `is_valid` is true iff
`validation_errors` is empty; and `is_self_signed` is true iff the
subject name equals the issuer name.  A self-signed certificate whose
`not_valid_after` lies a day in the past scans to `is_valid = false`
with an expiry message and `is_self_signed = true`. -/
theorem C5_certificate_validation :
    (∀ (cert : X509CertData) (now : Int) (host : String) (r : Certificate),
      parseCertificate cert now host = some r →
      (("Certificate not yet valid" ∈ r.validation_errors) ↔
        now < cert.not_valid_before) ∧
      (("Certificate expired" ∈ r.validation_errors) ↔
        now > cert.not_valid_after) ∧
      ((("Hostname " ++ host ++ " not in certificate") ∈
          r.validation_errors) ↔
        (¬ host ∈ cert.san_names ∧ host ≠ r.subject)) ∧
      (r.is_valid = true ↔ r.validation_errors = []) ∧
      (r.is_self_signed = true ↔ cert.subject = cert.issuer)) ∧
    parseCertificate expiredSelfSignedCert 86500 "192.168.1.50" =
      some { subject := "axis-device.local", issuer := "axis-device.local",
             serial_number := "77", not_before := 0, not_after := 100,
             fingerprint := "ab12", is_self_signed := true,
             is_valid := false,
             validation_errors := ["Certificate expired",
               "Hostname 192.168.1.50 not in certificate"],
             san_names := ["othername"],
             key_usage := ["Digital Signature", "Key Encipherment"] } := by
  constructor
  · intro cert now host r hr
    unfold parseCertificate at hr
    cases hs : commonNames cert.subject with
    | nil => rw [hs] at hr; exact absurd hr (by simp)
    | cons sCN srest =>
      cases hi : commonNames cert.issuer with
      | nil => rw [hs, hi] at hr; exact absurd hr (by simp)
      | cons iCN irest =>
        rw [hs, hi] at hr
        simp only [] at hr
        split_ifs at hr with h1 h2 h3 <;>
          (simp only [Option.some.injEq] at hr; subst hr) <;>
          refine ⟨?_, ?_, ?_, ?_, ?_⟩ <;>
          simp_all [hostMsg_ne_notYetValid, hostMsg_ne_expired,
            (hostMsg_ne_notYetValid host).symm, (hostMsg_ne_expired host).symm,
            decide_eq_true_eq] <;>
          tauto
  · decide

/-- Witness for C5 at the expired self-signed fixture. -/
theorem C5_witness :
    (("Certificate not yet valid" ∈
        ["Certificate expired",
         "Hostname 192.168.1.50 not in certificate"]) ↔
      (86500 : Int) < expiredSelfSignedCert.not_valid_before) ∧
    (("Certificate expired" ∈
        ["Certificate expired",
         "Hostname 192.168.1.50 not in certificate"]) ↔
      (86500 : Int) > expiredSelfSignedCert.not_valid_after) ∧
    ((("Hostname " ++ "192.168.1.50" ++ " not in certificate") ∈
        ["Certificate expired",
         "Hostname 192.168.1.50 not in certificate"]) ↔
      (¬ "192.168.1.50" ∈ expiredSelfSignedCert.san_names ∧
        "192.168.1.50" ≠ "axis-device.local")) ∧
    ((false = true) ↔
      (["Certificate expired",
        "Hostname 192.168.1.50 not in certificate"] : List String) = []) ∧
    ((true = true) ↔
      expiredSelfSignedCert.subject = expiredSelfSignedCert.issuer) :=
  C5_certificate_validation.1 expiredSelfSignedCert 86500 "192.168.1.50"
    { subject := "axis-device.local", issuer := "axis-device.local",
      serial_number := "77", not_before := 0, not_after := 100,
      fingerprint := "ab12", is_self_signed := true, is_valid := false,
      validation_errors := ["Certificate expired",
        "Hostname 192.168.1.50 not in certificate"],
      san_names := ["othername"],
      key_usage := ["Digital Signature", "Key Encipherment"] }
    C5_certificate_validation.2

/-! ## Discovery failure semantics -/

theorem foldl_collect_filterMap (f : String → Option AxisCamera)
    (l : List String) :
    ∀ acc : List AxisCamera,
      (l.map f).foldl
        (fun acc c =>
          match c with
          | some cam => acc ++ [cam]
          | none => acc) acc =
        acc ++ l.filterMap f := by
  induction l with
  | nil => intro acc; simp
  | cons x xs ih =>
      intro acc
      cases hx : f x with
      | none => simp [List.filterMap_cons, hx, ih]
      | some cam => simp [List.filterMap_cons, hx, ih]

/-- C7 fails on the code: discovery with a syntactically invalid network
CIDR returns normally with an empty device list.  The ValueError that
`ipaddress.ip_network` raises is swallowed by the catch-all handler
inside `_network_scan`, which logs it and returns the empty candidate
set, so nothing fails fatally. -/
theorem C7_counterexample :
    discoverCameras (Except.ok []) (Except.ok []) (Except.ok [])
      (some (Except.error
        "192.168.1.0/33 does not appear to be an IPv4 or IPv6 network"))
      (fun _ => false) (fun _ => none) = Except.ok [] := by
  rfl

/-- C7 (amended).  Discovery never fails fatally: an invalid CIDR is
caught inside `_network_scan` and contributes the empty candidate set
(as does any probe that raises), and the result is exactly the list of
devices whose individual probe succeeded — a single failing device probe
drops only that device.  The result is always `Except.ok`. -/
theorem C7_discovery_never_fatal :
    ∀ (upnp bonjour adp : Except String (List String))
      (parsedNetwork : Option (Except String (List String)))
      (portProbe : String → Bool) (probe : String → Option AxisCamera),
      discoverCameras upnp bonjour adp parsedNetwork portProbe probe =
        Except.ok ((unionIps ([upnp, bonjour, adp] ++
          (match parsedNetwork with
           | some p => [Except.ok (networkScan p portProbe)]
           | none => []))).filterMap probe) ∧
      (∀ e, networkScan (Except.error e) portProbe = []) := by
  intro upnp bonjour adp parsedNetwork portProbe probe
  constructor
  · unfold discoverCameras
    simp only []
    rw [foldl_collect_filterMap, List.nil_append]
  · intro e
    rfl

/-! ## Malformed digest challenges -/

/-- C9 fails on the code as stated: for a challenge that does not start
with Digest, `_create_digest_auth` does not fail with any
`MalformedChallengeError` (no such exception exists in the source); it
returns the empty string, while the contract stated by the specification
is an error result. -/
theorem C9_counterexample :
    createDigestAuth "root" "pass"
      [("WWW-Authenticate", "Basic realm=\"AXIS\"")] "1700000000.0" = "" ∧
    buildAuthHeaderSpec "root" "pass"
      [("WWW-Authenticate", "Basic realm=\"AXIS\"")] "1700000000.0" =
      Except.error DigestAuthError.malformedChallenge := by
  exact ⟨rfl, rfl⟩

/-- C9 (amended).  For every challenge that does not start with Digest,
building the header yields the empty string (no exception), and the
authenticated retry then fails: a camera answering 401 with such a
challenge on both device-info URLs and rejecting the empty Authorization
retry makes `_get_device_info` return nothing — an authentication
failure for that device, not a fatal error. -/
theorem C9_malformed_challenge_nonfatal :
    (∀ (username password cnonceSeed : String)
        (headers : List (String × String)),
      pyStartsWith (pyDictGet headers "WWW-Authenticate" "") "Digest" = false →
      createDigestAuth username password headers cnonceSeed = "") ∧
    getDeviceInfo "root" "pass" "1700000000.0" "192.168.1.50"
      (fun _ =>
        some ⟨401, [("WWW-Authenticate", "Basic realm=\"AXIS\"")], ""⟩)
      (fun _ _ => some ⟨401, [], ""⟩) =
      none := by
  constructor
  · intro username password cnonceSeed headers h
    simp [createDigestAuth, h]
  · rfl

/-- Witness for C9 at the concrete Basic challenge. -/
theorem C9_witness :
    createDigestAuth "root" "pass"
      [("WWW-Authenticate", "Basic realm=\"cam\"")] "1700000000.0" = "" :=
  C9_malformed_challenge_nonfatal.1 "root" "pass" "1700000000.0"
    [("WWW-Authenticate", "Basic realm=\"cam\"")] (by decide)

/-! ## Device info parsing lemmas -/

theorem parseInfoLine_ip (info : DeviceInfo) (line : String) :
    (parseInfoLine info line).ip = info.ip := by
  unfold parseInfoLine
  split
  · rfl
  · rfl
  · dsimp only
    split_ifs <;> rfl

theorem foldl_parseInfoLine_ip (lines : List String) :
    ∀ info, (lines.foldl parseInfoLine info).ip = info.ip := by
  induction lines with
  | nil => intro info; rfl
  | cons l ls ih =>
      intro info
      rw [List.foldl_cons, ih, parseInfoLine_ip]

theorem parseInfoLine_mac (info : DeviceInfo) (line : String)
    (h : lineKey line ≠ some "macaddress") :
    (parseInfoLine info line).mac = info.mac := by
  unfold parseInfoLine
  unfold lineKey at h
  rcases hsplit : pySplit line "=" with _ | ⟨k, rest⟩
  · simp only [hsplit]
  · rcases rest with _ | ⟨r, rs⟩
    · simp only [hsplit]
    · simp only [hsplit, ne_eq, Option.some.injEq] at h
      simp only [hsplit]
      split_ifs <;> rfl

theorem parseInfoLine_model (info : DeviceInfo) (line : String)
    (h : lineKey line ≠ some "model") :
    (parseInfoLine info line).model = info.model := by
  unfold parseInfoLine
  unfold lineKey at h
  rcases hsplit : pySplit line "=" with _ | ⟨k, rest⟩
  · simp only [hsplit]
  · rcases rest with _ | ⟨r, rs⟩
    · simp only [hsplit]
    · simp only [hsplit, ne_eq, Option.some.injEq] at h
      simp only [hsplit]
      split_ifs <;> rfl

theorem parseInfoLine_serial (info : DeviceInfo) (line : String)
    (h : lineKey line ≠ some "serialnumber") :
    (parseInfoLine info line).serial = info.serial := by
  unfold parseInfoLine
  unfold lineKey at h
  rcases hsplit : pySplit line "=" with _ | ⟨k, rest⟩
  · simp only [hsplit]
  · rcases rest with _ | ⟨r, rs⟩
    · simp only [hsplit]
    · simp only [hsplit, ne_eq, Option.some.injEq] at h
      simp only [hsplit]
      split_ifs <;> rfl

theorem parseInfoLine_firmware (info : DeviceInfo) (line : String)
    (h : lineKey line ≠ some "version") :
    (parseInfoLine info line).firmware = info.firmware := by
  unfold parseInfoLine
  unfold lineKey at h
  rcases hsplit : pySplit line "=" with _ | ⟨k, rest⟩
  · simp only [hsplit]
  · rcases rest with _ | ⟨r, rs⟩
    · simp only [hsplit]
    · simp only [hsplit, ne_eq, Option.some.injEq] at h
      simp only [hsplit]
      split_ifs <;> rfl

theorem parseInfoLine_name (info : DeviceInfo) (line : String)
    (h : lineKey line ≠ some "hostname") :
    (parseInfoLine info line).name = info.name := by
  unfold parseInfoLine
  unfold lineKey at h
  rcases hsplit : pySplit line "=" with _ | ⟨k, rest⟩
  · simp only [hsplit]
  · rcases rest with _ | ⟨r, rs⟩
    · simp only [hsplit]
    · simp only [hsplit, ne_eq, Option.some.injEq] at h
      simp only [hsplit]
      split_ifs <;> rfl

theorem foldl_parseInfoLine_mac (lines : List String) :
    ∀ info, (∀ line ∈ lines, lineKey line ≠ some "macaddress") →
      (lines.foldl parseInfoLine info).mac = info.mac := by
  induction lines with
  | nil => intro info _; rfl
  | cons l ls ih =>
      intro info h
      rw [List.foldl_cons,
        ih _ (fun x hx => h x (List.mem_cons_of_mem _ hx)),
        parseInfoLine_mac info l (h l (List.mem_cons_self _ _))]

theorem foldl_parseInfoLine_model (lines : List String) :
    ∀ info, (∀ line ∈ lines, lineKey line ≠ some "model") →
      (lines.foldl parseInfoLine info).model = info.model := by
  induction lines with
  | nil => intro info _; rfl
  | cons l ls ih =>
      intro info h
      rw [List.foldl_cons,
        ih _ (fun x hx => h x (List.mem_cons_of_mem _ hx)),
        parseInfoLine_model info l (h l (List.mem_cons_self _ _))]

theorem foldl_parseInfoLine_serial (lines : List String) :
    ∀ info, (∀ line ∈ lines, lineKey line ≠ some "serialnumber") →
      (lines.foldl parseInfoLine info).serial = info.serial := by
  induction lines with
  | nil => intro info _; rfl
  | cons l ls ih =>
      intro info h
      rw [List.foldl_cons,
        ih _ (fun x hx => h x (List.mem_cons_of_mem _ hx)),
        parseInfoLine_serial info l (h l (List.mem_cons_self _ _))]

theorem foldl_parseInfoLine_firmware (lines : List String) :
    ∀ info, (∀ line ∈ lines, lineKey line ≠ some "version") →
      (lines.foldl parseInfoLine info).firmware = info.firmware := by
  induction lines with
  | nil => intro info _; rfl
  | cons l ls ih =>
      intro info h
      rw [List.foldl_cons,
        ih _ (fun x hx => h x (List.mem_cons_of_mem _ hx)),
        parseInfoLine_firmware info l (h l (List.mem_cons_self _ _))]

theorem foldl_parseInfoLine_name (lines : List String) :
    ∀ info, (∀ line ∈ lines, lineKey line ≠ some "hostname") →
      (lines.foldl parseInfoLine info).name = info.name := by
  induction lines with
  | nil => intro info _; rfl
  | cons l ls ih =>
      intro info h
      rw [List.foldl_cons,
        ih _ (fun x hx => h x (List.mem_cons_of_mem _ hx)),
        parseInfoLine_name info l (h l (List.mem_cons_self _ _))]

/-- C10.  Parsing any device-info body for any probed ip populates all
six identity fields: `ip` is the probed ip; `name` defaults to
axis-(ip) and `mac`, `model`, `serial`, `firmware` each default to the
string unknown when the body has no corresponding key=value line.  A
device whose info endpoint answers 200 with an empty body therefore
still enters the result set as a full record with placeholder values
rather than being dropped. -/
theorem C10_device_record_defaults :
    (∀ body ip : String,
      (parseDeviceInfo body ip).ip = ip ∧
      ((∀ line ∈ pySplit body "\n", lineKey line ≠ some "macaddress") →
        (parseDeviceInfo body ip).mac = "unknown") ∧
      ((∀ line ∈ pySplit body "\n", lineKey line ≠ some "model") →
        (parseDeviceInfo body ip).model = "unknown") ∧
      ((∀ line ∈ pySplit body "\n", lineKey line ≠ some "serialnumber") →
        (parseDeviceInfo body ip).serial = "unknown") ∧
      ((∀ line ∈ pySplit body "\n", lineKey line ≠ some "version") →
        (parseDeviceInfo body ip).firmware = "unknown") ∧
      ((∀ line ∈ pySplit body "\n", lineKey line ≠ some "hostname") →
        (parseDeviceInfo body ip).name = "axis-" ++ ip)) ∧
    probeCamera "root" "pass" "1700000000.0"
      (fun _ => some ⟨200, [], ""⟩) (fun _ _ => none) (fun _ => [])
      (fun _ => none) (fun _ => none) "192.168.1.50" =
      some { ip := "192.168.1.50", mac := "unknown", model := "unknown",
             serial := "unknown", firmware := "unknown",
             name := "axis-192.168.1.50", rtsp_url := none,
             websocket_url := none, capabilities := [] } := by
  constructor
  · intro body ip
    refine ⟨foldl_parseInfoLine_ip _ _,
      fun h => foldl_parseInfoLine_mac _ _ h,
      fun h => foldl_parseInfoLine_model _ _ h,
      fun h => foldl_parseInfoLine_serial _ _ h,
      fun h => foldl_parseInfoLine_firmware _ _ h,
      fun h => foldl_parseInfoLine_name _ _ h⟩
  · rfl

/-- Witness for C10 at the empty body. -/
theorem C10_witness :
    (parseDeviceInfo "" "192.168.1.50").ip = "192.168.1.50" ∧
    (parseDeviceInfo "" "192.168.1.50").mac = "unknown" ∧
    (parseDeviceInfo "" "192.168.1.50").name = "axis-" ++ "192.168.1.50" :=
  ⟨(C10_device_record_defaults.1 "" "192.168.1.50").1,
   (C10_device_record_defaults.1 "" "192.168.1.50").2.1 (by decide),
   (C10_device_record_defaults.1 "" "192.168.1.50").2.2.2.2.2 (by decide)⟩

/-! ## Digest response formula -/

/-- C1 fails on the code as stated: the response is not computed from
the method and uri of the request being authenticated.  The method is
the hardcoded literal GET and the uri is read from the uri parameter of
the challenge, defaulting to the single character /.  For the challenge
Digest realm="testrealm", nonce="abc123", qop="auth" (which carries no
uri parameter, as real WWW-Authenticate challenges do not) guarding the
authenticated request GET /axis-cgi/basicdeviceinfo.cgi, the emitted
header carries uri="/" and the response computed with HA2 = MD5(GET:/),
while the RFC 2617 value for the request being authenticated — HA2 =
MD5(GET:/axis-cgi/basicdeviceinfo.cgi) — differs. -/
theorem C1_counterexample :
    createDigestAuth "root" "pass"
      [("WWW-Authenticate",
        "Digest realm=\"testrealm\", nonce=\"abc123\", qop=\"auth\"")]
      "1700000000.0" =
      "Digest username=\"root\", realm=\"testrealm\", nonce=\"abc123\", uri=\"/\", qop=auth, nc=00000001, cnonce=\"a9752e417deeb355e970f0ee07d38195\", response=\"5700192b1fb82bcc23ab234e11ceb853\"" ∧
    rfc2617ResponseQop "root" "pass" "testrealm" "abc123" "auth" "00000001"
      "a9752e417deeb355e970f0ee07d38195" "GET"
      "/axis-cgi/basicdeviceinfo.cgi" =
      "56836d5508989c14c53385077a01bd63" ∧
    ("5700192b1fb82bcc23ab234e11ceb853" : String) ≠
      "56836d5508989c14c53385077a01bd63" := by
  refine ⟨by decide, by decide, by decide⟩

/-- C1 (amended).  For every challenge that starts with Digest, the
emitted Authorization value is the RFC 2617 field set whose response is
`MD5(HA1:nonce:nc:cnonce:qop:HA2)` with `HA1 =
MD5(username:realm:password)`, nc = 00000001 when the challenge carries
qop, and `MD5(HA1:nonce:HA2)` when it does not — where the method is
always GET and the uri comes from the uri parameter of the challenge,
defaulting to /.  For realm testrealm, nonce abc123, qop auth, username
root, password pass, method GET and uri /axis-cgi/x (supplied in the
challenge), the response field equals the independently computed
RFC 2617 reference value 17f1179ac77697f9811a7efb5c6a23a3. -/
theorem C1_digest_response_formula :
    (∀ (username password cnonceSeed : String)
        (headers : List (String × String)),
      pyStartsWith (pyDictGet headers "WWW-Authenticate" "") "Digest" = true →
      createDigestAuth username password headers cnonceSeed =
        digestHeaderSpec username password cnonceSeed
          (pyDictGet headers "WWW-Authenticate" "")) ∧
    createDigestAuth "root" "pass"
      [("WWW-Authenticate",
        "Digest realm=\"testrealm\", nonce=\"abc123\", qop=\"auth\", uri=\"/axis-cgi/x\"")]
      "1700000000.0" =
      "Digest username=\"root\", realm=\"testrealm\", nonce=\"abc123\", uri=\"/axis-cgi/x\", qop=auth, nc=00000001, cnonce=\"a9752e417deeb355e970f0ee07d38195\", response=\"17f1179ac77697f9811a7efb5c6a23a3\"" := by
  constructor
  · intro username password cnonceSeed headers h
    simp only [createDigestAuth, digestHeaderSpec, h, if_true,
      rfc2617ResponseQop, rfc2617ResponseNoQop, rfc2617HA1, rfc2617HA2]
    rw [show ("GET" ++ ":" : String) = "GET:" from by decide]
  · decide

/-- Witness for C1 at the concrete challenge carrying a uri parameter. -/
theorem C1_witness :
    createDigestAuth "root" "pass"
      [("WWW-Authenticate",
        "Digest realm=\"testrealm\", nonce=\"abc123\", qop=\"auth\", uri=\"/axis-cgi/x\"")]
      "1700000000.0" =
      digestHeaderSpec "root" "pass" "1700000000.0"
        (pyDictGet
          [("WWW-Authenticate",
            "Digest realm=\"testrealm\", nonce=\"abc123\", qop=\"auth\", uri=\"/axis-cgi/x\"")]
          "WWW-Authenticate" "") :=
  C1_digest_response_formula.1 "root" "pass" "1700000000.0"
    [("WWW-Authenticate",
      "Digest realm=\"testrealm\", nonce=\"abc123\", qop=\"auth\", uri=\"/axis-cgi/x\"")]
    (by decide)
